import Mathlib

/-!
Verification development for the unified HTTP + SOCKS5 proxy server
(`src/server.js`, class `UnifiedProxyServer`).  The JavaScript source is
shallowly embedded: each handler becomes a pure Lean function from its
inputs (byte buffers modelled as `List Nat`, strings as `String`, the
asynchronous TCP-connect outcome as an explicit `ConnectOutcome` value)
to the observable effects it performs, recorded as a trace of `Action`s
(socket writes, stats-counter increments, pipe set-up, socket
destruction).  Node.js buffer reads `data[i]` return `undefined` out of
range; this is modelled with `List.get?` / `List.getD` exactly where the
source's coercions make `undefined` behave as a missing byte or as 0.
-/

namespace ProxyTL

/-- Observable effect of a handler: a stats-counter increment
(`this.stats.* ++` in the source), a write to the client socket, the
start of a TCP connection attempt to a target, the installation of a
byte pipe, ending/destroying a socket, or removal of the client socket
from the server's `connections` registry set. -/
inductive Action where
  | incHttpRequests
  | incSocks5Connections
  | incConnectTunnels
  | incErrors
  | removeFromRegistry
  | writeClientStr (s : String)
  | writeClientBytes (b : List Nat)
  | connectAttempt (host : String) (port : Int)
  | pipeTargetToClient
  | pipeClientToTarget
  | destroyClient
  | destroyTarget
  | endClient
  | endTarget
  | otherRoute
  deriving DecidableEq, Repr

/-- Outcome of an asynchronous `net.createConnection` attempt: either the
`connect` event fires (success) or the `error` event fires (failure). -/
inductive ConnectOutcome where
  | success
  | failure
  deriving DecidableEq, Repr

/-! ## SOCKS5 wire constants and replies (source lines 374-386, 961-967) -/

/-- The 10-byte reply built by `sendSOCKS5Error(socket, errorCode)`:
`[SOCKS_VERSION, errorCode, 0x00, ADDRESS_TYPES.IPv4, 0,0,0,0, 0,0]`. -/
def sendSOCKS5ErrorBytes (errorCode : Nat) : List Nat :=
  [5, errorCode, 0, 1, 0, 0, 0, 0, 0, 0]

/-- The 10-byte success reply built inline in `createSOCKS5Tunnel`:
`[SOCKS_VERSION, 0x00, 0x00, ADDRESS_TYPES.IPv4, 0,0,0,0, 0,0]`. -/
def socks5SuccessReply : List Nat :=
  [5, 0, 0, 1, 0, 0, 0, 0, 0, 0]

/-! ## SOCKS5 handshake (source lines 841-876) -/

/-- The offered-method list read by `handleSOCKS5Handshake`: the loop
`for (let i = 2; i < 2 + methodCount; i++) methods.push(data[i])`.
Out-of-range reads push JavaScript `undefined`, modelled as `none`. -/
def handshakeMethods (data : List Nat) : List (Option Nat) :=
  (List.range (data.getD 1 0)).map fun i => data.get? (2 + i)

/-- `handleSOCKS5Handshake(socket, data)`: returns the list of buffers
written to the client socket and whether the handler threw.  The source
throws before writing when `data.length < 2` or the version byte is not
5; otherwise it writes `[SOCKS_VERSION, chosenMethod]` and throws
afterwards exactly when `chosenMethod === 0xFF`. -/
def handleSOCKS5Handshake (auth : Option (List Nat × List Nat)) (data : List Nat) :
    List (List Nat) × Bool :=
  if data.length < 2 then ([], true)
  else if data.get? 0 ≠ some 5 then ([], true)
  else
    let methods := handshakeMethods data
    let chosenMethod : Nat :=
      match auth with
      | some _ => if methods.contains (some 2) then 2 else 0xFF
      | none => if methods.contains (some 0) then 0 else 0xFF
    ([[5, chosenMethod]], chosenMethod == 0xFF)

/-! ## SOCKS5 username/password authentication (source lines 878-894) -/

/-- `handleSOCKS5Authentication(socket, data)`.  Credentials and the
parsed username/password are byte lists (the source compares the decoded
strings; byte equality models this).  With no configured auth the
handler returns immediately.  `Buffer.slice` clamps out-of-range bounds,
modelled by `drop`/`take`; an out-of-range length byte makes the JS
slice empty, matching `getD _ 0`. -/
def handleSOCKS5Authentication (auth : Option (List Nat × List Nat)) (data : List Nat) :
    List (List Nat) × Bool :=
  match auth with
  | none => ([], false)
  | some (user, pass) =>
    let ulen := data.getD 1 0
    let username := (data.drop 2).take ulen
    let plen := data.getD (2 + ulen) 0
    let password := (data.drop (3 + ulen)).take plen
    let ok : Bool := username == user && password == pass
    ([[1, if ok then 0 else 1]], !ok)

/-! ## SOCKS5 request (source lines 896-928) -/

/-- Result of `handleSOCKS5Request`: either the handler threw (possibly
after writing an error reply), or it reached
`createSOCKS5Tunnel(socket, targetHost, targetPort)`. -/
inductive ReqOutcome where
  | threw
  | connectTo (host : String) (port : Nat)
  deriving DecidableEq, Repr

/-- Rendering of one byte of the template string
``${data[4]}.${data[5]}.${data[6]}.${data[7]}``: a present byte prints in
decimal, a missing one prints as JavaScript `undefined`. -/
def ipPart (o : Option Nat) : String :=
  match o with
  | some n => toString n
  | none => "undefined"

/-- Decoding of `buffer.toString()` for the domain-name bytes, byte per
character (exact for the ASCII inputs exercised here). -/
def bytesToStr (bs : List Nat) : String :=
  String.mk (bs.map Char.ofNat)

/-- `handleSOCKS5Request(socket, data)`: returns the error buffers
written and the outcome.  Port bytes read past the end of the buffer are
`undefined` in JS, which the `<< 8` / `|` coercions turn into 0, matching
`getD _ 0`. -/
def handleSOCKS5Request (data : List Nat) : List (List Nat) × ReqOutcome :=
  if data.length < 4 then ([], .threw)
  else
    let version := data.getD 0 0
    let command := data.getD 1 0
    let addressType := data.getD 3 0
    if version ≠ 5 ∨ command ≠ 1 then ([sendSOCKS5ErrorBytes 7], .threw)
    else if addressType = 1 then
      let targetHost := ipPart (data.get? 4) ++ "." ++ ipPart (data.get? 5) ++ "."
        ++ ipPart (data.get? 6) ++ "." ++ ipPart (data.get? 7)
      let targetPort := (data.getD 8 0) <<< 8 ||| data.getD 9 0
      ([], .connectTo targetHost targetPort)
    else if addressType = 3 then
      let domainLength := data.getD 4 0
      let targetHost := bytesToStr ((data.drop 5).take domainLength)
      let off := 5 + domainLength
      let targetPort := (data.getD off 0) <<< 8 ||| data.getD (off + 1) 0
      ([], .connectTo targetHost targetPort)
    else ([sendSOCKS5ErrorBytes 8], .threw)

/-! ## SOCKS5 per-connection state machine (source lines 811-839)

`handleSOCKS5Connection` keeps a mutable `step` variable: it starts as
`'handshake'`, becomes `'auth'` or `'request'` after a successful
handshake on the first chunk, and the `data` listener dispatches on it
(`'auth'` and `'request'` are the only branches; in the `'tunnel'` state
the listener matches neither branch and does nothing). -/

/-- The value of the `step` variable of `handleSOCKS5Connection`. -/
inductive Socks5Step where
  | handshakeStep
  | authStep
  | requestStep
  | tunnelStep
  deriving DecidableEq, Repr

/-- Result of processing: the final `step` value, whether the client
socket was destroyed, and the trace of actions performed. -/
structure StepRes where
  step : Socks5Step
  destroyed : Bool
  acts : List Action
  deriving DecidableEq, Repr

/-- Buffers written to the client socket, as trace actions. -/
def writesToActions (ws : List (List Nat)) : List Action :=
  ws.map Action.writeClientBytes

/-- One firing of the `data` listener installed by
`handleSOCKS5Connection`: dispatch on `step`, catch a thrown error by
destroying the socket.  In the `'request'` state a successful parse
calls `createSOCKS5Tunnel` (recorded as the synchronous
`connectAttempt`; the asynchronous connect outcome is modelled by
`createSOCKS5TunnelActions` below) and then sets `step = 'tunnel'`.
In the `'handshake'` and `'tunnel'` states neither `if` branch of the
listener matches, so nothing happens. -/
def socks5DataStep (auth : Option (List Nat × List Nat)) (st : Socks5Step)
    (data : List Nat) : StepRes :=
  match st with
  | .authStep =>
    let r := handleSOCKS5Authentication auth data
    if r.2 then ⟨.authStep, true, writesToActions r.1⟩
    else ⟨.requestStep, false, writesToActions r.1⟩
  | .requestStep =>
    match handleSOCKS5Request data with
    | (ws, .threw) => ⟨.requestStep, true, writesToActions ws⟩
    | (ws, .connectTo h p) =>
      ⟨.tunnelStep, false, writesToActions ws ++ [.connectAttempt h (p : Int)]⟩
  | .handshakeStep => ⟨.handshakeStep, false, []⟩
  | .tunnelStep => ⟨.tunnelStep, false, []⟩

/-- The `data` events delivered after the first chunk.  A destroyed
socket emits no further `data` events, so processing stops there. -/
def runChunks (auth : Option (List Nat × List Nat)) (st : Socks5Step) :
    List (List Nat) → StepRes
  | [] => ⟨st, false, []⟩
  | c :: cs =>
    let r := socks5DataStep auth st c
    if r.destroyed then ⟨r.step, true, r.acts⟩
    else
      let rest := runChunks auth r.step cs
      ⟨rest.step, rest.destroyed, r.acts ++ rest.acts⟩

/-- `handleSOCKS5Connection(socket, firstData)` followed by the later
`data` events `rest`: the first chunk goes to the handshake handler
inside a `try`/`catch` whose `catch` destroys the socket and returns
(before the `data` listener is even installed); on success `step`
becomes `'auth'` when authentication is configured and `'request'`
otherwise. -/
def handleSOCKS5Connection (auth : Option (List Nat × List Nat))
    (firstData : List Nat) (rest : List (List Nat)) : StepRes :=
  let hs := handleSOCKS5Handshake auth firstData
  if hs.2 then ⟨.handshakeStep, true, writesToActions hs.1⟩
  else
    let st0 : Socks5Step := match auth with
      | some _ => .authStep
      | none => .requestStep
    let r := runChunks auth st0 rest
    ⟨r.step, r.destroyed, writesToActions hs.1 ++ r.acts⟩

/-! ## SOCKS5 tunnel establishment (source lines 930-959) -/

/-- `createSOCKS5Tunnel(clientSocket, targetHost, targetPort)` as seen
from the connect attempt's outcome.  The `connect` handler writes the
10-byte success reply and then installs the two pipes; the `error`
handler calls `sendSOCKS5Error(clientSocket, 0x05)` and destroys the
client socket. -/
def createSOCKS5TunnelActions (host : String) (port : Int) :
    ConnectOutcome → List Action
  | .success => [.connectAttempt host port, .writeClientBytes socks5SuccessReply,
      .pipeTargetToClient, .pipeClientToTarget]
  | .failure => [.connectAttempt host port,
      .writeClientBytes (sendSOCKS5ErrorBytes 5), .destroyClient]

/-! ## Protocol detection (source lines 439-470) -/

/-- The ASCII byte sequences of the request-line starts tested by
`dataStr.startsWith(...)`: `GET `, `POST `, `PUT `, `DELETE `, `HEAD `,
`OPTIONS `, `CONNECT `. -/
def httpMethodTokens : List (List Nat) :=
  [[71, 69, 84, 32],
   [80, 79, 83, 84, 32],
   [80, 85, 84, 32],
   [68, 69, 76, 69, 84, 69, 32],
   [72, 69, 65, 68, 32],
   [79, 80, 84, 73, 79, 78, 83, 32],
   [67, 79, 78, 78, 69, 67, 84, 32]]

/-- The `isHTTP` test of `detectAndRouteProtocol`, rendered at byte
level: `firstData.toString().startsWith(tok)` for an ASCII token `tok`
holds exactly when the token's bytes are a prefix of the buffer (UTF-8
decoding is prefix-stable on ASCII, and no invalid sequence decodes to
an ASCII character under Node's replacement-character decoding). -/
def startsWithHTTPMethod (firstData : List Nat) : Bool :=
  httpMethodTokens.any fun t => t.isPrefixOf firstData

/-- Classification outcome of `detectAndRouteProtocol`. -/
inductive Protocol where
  | http
  | socks5
  deriving DecidableEq, Repr

/-- The classification performed by `detectAndRouteProtocol`: the source
computes `isHTTP` and `isSOCKS5 = firstData[0] === 0x05 &&
firstData.length >= 3` and dispatches `if (isHTTP) ... else if
(isSOCKS5) ... else` HTTP fallback. -/
def detectProtocol (firstData : List Nat) : Protocol :=
  if startsWithHTTPMethod firstData then .http
  else if firstData.get? 0 = some 5 ∧ 3 ≤ firstData.length then .socks5
  else .http

/-- `detectAndRouteProtocol(socket, firstData)`: the chosen handler and
the buffer handed to it (the source passes `firstData` unchanged to
`handleHTTPConnection` or `handleSOCKS5Connection`). -/
def detectAndRouteProtocol (firstData : List Nat) : Protocol × List Nat :=
  (detectProtocol firstData, firstData)

/-- Modelled from the spec: the detection rule as §4.1 orders it —
first the SOCKS5 test (first byte `0x05`, length ≥ 3), then the HTTP
method-token test, then the permissive HTTP fallback.  Compared against
`detectProtocol`, which tests HTTP first as the source does. -/
def detectProtocolSpecOrder (firstData : List Nat) : Protocol :=
  if firstData.get? 0 = some 5 ∧ 3 ≤ firstData.length then .socks5
  else if startsWithHTTPMethod firstData then .http
  else .http

/-- ASCII bytes of a string, for feeding text first-chunks to the
byte-level detector. -/
def asciiBytes (s : String) : List Nat :=
  s.toList.map Char.toNat

/-! ## HTTP request parsing (source lines 484-514) -/

/-- The request object built by `parseHTTPRequest`: the pieces of
`lines[0].split(' ')` (missing pieces are JS `undefined`, modelled as
`none`) and the parsed header pairs. -/
structure HTTPReq where
  method : Option String
  url : Option String
  version : Option String
  headers : List (String × String)
  deriving DecidableEq, Repr

/-- Splitter on character lists modelling JavaScript
`String.prototype.split` with a non-empty separator: scan for the next
occurrence of the separator, emit the piece before it, continue after
it.  The fuel argument (instantiated with the input length plus one)
only bounds the recursion structurally; every step consumes at least one
character, so the fuel never runs out on the instantiations used. -/
def splitAux (sep : List Char) : Nat → List Char → List Char → List (List Char)
  | 0, cs, acc => [acc.reverse ++ cs]
  | _ + 1, [], acc => [acc.reverse]
  | fuel + 1, c :: cs, acc =>
    if sep ≠ [] ∧ sep.isPrefixOf (c :: cs) then
      acc.reverse :: splitAux sep fuel ((c :: cs).drop sep.length) []
    else
      splitAux sep fuel cs (c :: acc)

/-- JavaScript `s.split(sep)` for the non-empty separators the source
uses (`"\r\n"`, `" "`, `": "`, `":"`). -/
def jsSplit (s sep : String) : List String :=
  (splitAux sep.toList (s.toList.length + 1) s.toList []).map String.mk

/-- JavaScript `toLowerCase()` on the ASCII header keys. -/
def jsToLower (s : String) : String :=
  String.mk (s.toList.map Char.toLower)

/-- The header loop of `parseHTTPRequest`: walk the lines after the
request line until an empty line; `const [key, value] = line.split(': ')`
keeps only the first two pieces, and the pair is recorded (key
lower-cased) only when both are non-empty strings. -/
def parseHeaderLines : List String → List (String × String)
  | [] => []
  | l :: ls =>
    if l = "" then []
    else
      let parts := jsSplit l ": "
      match parts.get? 1 with
      | some v =>
        let key := parts.headD ""
        if key ≠ "" ∧ v ≠ "" then (jsToLower key, v) :: parseHeaderLines ls
        else parseHeaderLines ls
      | none => parseHeaderLines ls

/-- `parseHTTPRequest(socket, firstData)` on the decoded first chunk.
The source wraps this in `try`/`catch`, but no step of it can throw on a
string input, so the model is total. -/
def parseHTTPRequest (firstData : String) : HTTPReq :=
  let lines := jsSplit firstData "\r\n"
  let requestLine := jsSplit (lines.headD "") " "
  { method := requestLine.get? 0
    url := requestLine.get? 1
    version := requestLine.get? 2
    headers := parseHeaderLines (lines.drop 1) }

/-! ## HTTP CONNECT handling (source lines 781-808) -/

/-- `const [targetHost, targetPort] = req.url.split(':')`: the head of
the split is the host, the second piece (if any) the port text. -/
def splitConnectTarget (u : String) : String × Option String :=
  let parts := jsSplit u ":"
  (parts.headD "", parts.get? 1)

/-- Lexical classes used by `parseInt`: JavaScript string whitespace
(the common ASCII cases). -/
def isWS (c : Char) : Bool :=
  c == ' ' || c == '\t' || c == '\n' || c == '\r'

/-- Value of a hexadecimal digit character, `none` otherwise. -/
def digitVal16 (c : Char) : Option Nat :=
  if c.isDigit then some (c.toNat - 48)
  else if ('a' ≤ c && c ≤ 'f') then some (c.toNat - 87)
  else if ('A' ≤ c && c ≤ 'F') then some (c.toNat - 55)
  else none

/-- Whether `c` is a digit of the given base (10 or 16). -/
def isBaseDigit (base : Nat) (c : Char) : Bool :=
  match digitVal16 c with
  | some v => v < base
  | none => false

/-- Numeric value of a digit string in the given base. -/
def digitsToNat (base : Nat) (ds : List Char) : Nat :=
  ds.foldl (fun acc c => acc * base + (digitVal16 c).getD 0) 0

/-- JavaScript `parseInt(s)` with no radix argument: skip leading
whitespace, take an optional sign, honour a `0x`/`0X` hexadecimal
prefix, then read leading digits; the result is `NaN` (here `none`)
when no digit follows. -/
def jsParseInt (s : String) : Option Int :=
  let cs := s.toList.dropWhile isWS
  let signAndRest : Int × List Char :=
    match cs with
    | '-' :: r => (-1, r)
    | '+' :: r => (1, r)
    | _ => (1, cs)
  let baseAndRest : Nat × List Char :=
    match signAndRest.2 with
    | '0' :: 'x' :: r => (16, r)
    | '0' :: 'X' :: r => (16, r)
    | _ => (10, signAndRest.2)
  let ds := baseAndRest.2.takeWhile (isBaseDigit baseAndRest.1)
  if ds.isEmpty then none
  else some (signAndRest.1 * (digitsToNat baseAndRest.1 ds : Int))

/-- `const port = parseInt(targetPort) || 443`: a missing port text
(`parseInt(undefined)` is `NaN`), an unparseable one (`NaN`) and the
parse result 0 are all falsy and fall back to 443. -/
def jsParseIntOr443 (portText : Option String) : Int :=
  match portText with
  | none => 443
  | some s =>
    match jsParseInt s with
    | none => 443
    | some n => if n = 0 then 443 else n

/-- Status line written to the client on tunnel establishment. -/
def connEstablishedMsg : String := "HTTP/1.1 200 Connection Established\r\n\r\n"

/-- Status line written to the client on connect failure. -/
def badGatewayMsg : String := "HTTP/1.1 502 Bad Gateway\r\n\r\n"

/-- `handleHTTPConnect(req, res)`: with no target
(`req.url` is `undefined`, so `req.url.split` throws a `TypeError`) the
`catch` block writes 502 and destroys the client socket.  With a target,
the source splits it, defaults the port, increments
`this.stats.connectTunnels`, and calls `net.createConnection`; the
`connect` callback writes the 200 line and installs the two pipes, the
`error` handler writes 502 and destroys the client socket.  Note that no
byte of `firstData` beyond the request line is ever forwarded: the
handler reads only `req.url`. -/
def handleHTTPConnect (u : Option String) (outcome : ConnectOutcome) : List Action :=
  match u with
  | none => [.writeClientStr badGatewayMsg, .destroyClient]
  | some target =>
    let targetHost := (splitConnectTarget target).1
    let port := jsParseIntOr443 (splitConnectTarget target).2
    .incConnectTunnels :: .connectAttempt targetHost port ::
      (match outcome with
       | .success => [.writeClientStr connEstablishedMsg,
           .pipeTargetToClient, .pipeClientToTarget]
       | .failure => [.writeClientStr badGatewayMsg, .destroyClient])

/-- `routeHTTPRequest(req, res)` restricted to the CONNECT dispatch the
embedded claims exercise: `OPTIONS` and the path-based routes (`/`,
`/health`, `/proxy`, `/stats`, absolute-URI proxying, 404) are abstracted
as `otherRoute`; the CORS `setHeader` calls only buffer header values
and write nothing for the CONNECT branch, which writes to the raw
socket. -/
def routeHTTPRequest (req : HTTPReq) (outcome : ConnectOutcome) : List Action :=
  if req.method = some "OPTIONS" then [.otherRoute]
  else if req.method = some "CONNECT" then handleHTTPConnect req.url outcome
  else [.otherRoute]

/-- `handleHTTPConnection(socket, firstData)`: increments
`this.stats.httpRequests`, parses the request and routes it. -/
def handleHTTPConnection (firstData : String) (outcome : ConnectOutcome) : List Action :=
  .incHttpRequests :: routeHTTPRequest (parseHTTPRequest firstData) outcome

/-! ## Tunnel teardown pairing (source lines 405-416, 789-801, 930-959)

Once a tunnel is established, each endpoint socket can go away in one of
three ways; Node emits the corresponding events on that socket:
end-of-stream (peer FIN) emits `end` then `close`; a transport error
emits `error` then `close`; a local `destroy` emits only `close`.
`a.pipe(b)` reacts only to `end` on `a` (calling `b.end()`); a Node
stream `error` is not propagated by `pipe`.  The reaction tables below
record, per tunnel kind and per event, the actions the handlers
registered in the source perform. -/

/-- Events a socket emits. -/
inductive Ev where
  | evEnd
  | evErr
  | evClose
  deriving DecidableEq, Repr

/-- The ways an endpoint can go away. -/
inductive CloseMode where
  | byEnd
  | byErr
  | byDestroy
  deriving DecidableEq, Repr

/-- Events emitted on a socket per close mode (Node semantics: `close`
always follows `end` and `error`; a plain `destroy` emits only
`close`). -/
def eventsOf : CloseMode → List Ev
  | .byEnd => [.evEnd, .evClose]
  | .byErr => [.evErr, .evClose]
  | .byDestroy => [.evClose]

/-- Reactions to events on the client socket of an established SOCKS5
tunnel: `clientSocket.pipe(targetSocket)` propagates `end`;
`clientSocket.on('close')` (line 956) destroys the target; the
server-level handlers (lines 409-416) remove the client socket from the
`connections` registry on `close` and `error`. -/
def socks5TunnelClientReaction : Ev → List Action
  | .evEnd => [.endTarget]
  | .evErr => [.removeFromRegistry]
  | .evClose => [.removeFromRegistry, .destroyTarget]

/-- Reactions to events on the target socket of an established SOCKS5
tunnel: `targetSocket.pipe(clientSocket)` propagates `end`;
`targetSocket.on('error')` (line 946) sends the 0x05 reply and destroys
the client; `targetSocket.on('close')` (line 952) destroys the client. -/
def socks5TunnelTargetReaction : Ev → List Action
  | .evEnd => [.endClient]
  | .evErr => [.writeClientBytes (sendSOCKS5ErrorBytes 5), .destroyClient]
  | .evClose => [.destroyClient]

/-- Reactions to events on the client socket of an established HTTP
CONNECT tunnel: only `res.socket.pipe(targetSocket)` (line 794), which
propagates `end`; no `close` or `error` handler touches the target
socket, and the server-level handlers only update the registry. -/
def httpTunnelClientReaction : Ev → List Action
  | .evEnd => [.endTarget]
  | .evErr => [.removeFromRegistry]
  | .evClose => [.removeFromRegistry]

/-- Reactions to events on the target socket of an established HTTP
CONNECT tunnel: `targetSocket.pipe(res.socket)` (line 793) propagates
`end`; `targetSocket.on('error')` (line 797) writes the 502 line and
destroys the client; no `close` handler exists. -/
def httpTunnelTargetReaction : Ev → List Action
  | .evEnd => [.endClient]
  | .evErr => [.writeClientStr badGatewayMsg, .destroyClient]
  | .evClose => []

/-- Whether an action closes the target socket. -/
def closesTargetAct (a : Action) : Bool :=
  a == Action.destroyTarget || a == Action.endTarget

/-- Whether an action closes the client socket. -/
def closesClientAct (a : Action) : Bool :=
  a == Action.destroyClient || a == Action.endClient

/-- Whether a client-side closure of the given mode leads, through the
registered reactions, to the target socket being ended or destroyed. -/
def clientCloseClosesTarget (reaction : Ev → List Action) (m : CloseMode) : Bool :=
  (eventsOf m).any fun e => (reaction e).any closesTargetAct

/-- Whether a target-side closure of the given mode leads, through the
registered reactions, to the client socket being ended or destroyed. -/
def targetCloseClosesClient (reaction : Ev → List Action) (m : CloseMode) : Bool :=
  (eventsOf m).any fun e => (reaction e).any closesClientAct

/-! ## Trace helpers -/

/-- The strings written to the client socket, in order. -/
def clientStrWrites (tr : List Action) : List String :=
  tr.filterMap fun a =>
    match a with
    | .writeClientStr s => some s
    | _ => none

/-- Whether a trace installs a relay pipe. -/
def hasPipe (tr : List Action) : Bool :=
  tr.any fun a => a == Action.pipeTargetToClient || a == Action.pipeClientToTarget

/-- Recognizer for the `connectTunnels` increment. -/
def isIncConnectTunnels : Action → Bool
  | .incConnectTunnels => true
  | _ => false

/-- Recognizer for the `errors` increment. -/
def isIncErrors : Action → Bool
  | .incErrors => true
  | _ => false

/-- Ordering of the protocol phases of a SOCKS5 connection. -/
def phaseRank : Socks5Step → Nat
  | .handshakeStep => 0
  | .authStep => 1
  | .requestStep => 2
  | .tunnelStep => 3

/-! ## Helper lemmas -/

/-- A byte-list prefix determines the first byte of the buffer. -/
theorem isPrefixOf_cons_first {c : Nat} {t d : List Nat}
    (h : (c :: t).isPrefixOf d = true) : d.get? 0 = some c := by
  cases d with
  | nil => simp [List.isPrefixOf] at h
  | cons b bs =>
    have hcb : c = b := by
      simp only [List.isPrefixOf, Bool.and_eq_true, beq_iff_eq] at h
      exact h.1
    simp [hcb]

/-- A buffer classified as starting with an HTTP method token cannot
have 0x05 as its first byte (all method tokens start with an ASCII
letter). -/
theorem startsWithHTTPMethod_first_byte {d : List Nat}
    (h : startsWithHTTPMethod d = true) : d.get? 0 ≠ some 5 := by
  simp only [startsWithHTTPMethod, httpMethodTokens, List.any_eq_true] at h
  obtain ⟨t, ht, hp⟩ := h
  fin_cases ht <;>
    · rw [isPrefixOf_cons_first hp]
      decide

/-- Client-socket writes contain no stats increment. -/
theorem countP_isIncErrors_writesToActions (ws : List (List Nat)) :
    (writesToActions ws).countP isIncErrors = 0 := by
  rw [List.countP_eq_zero]
  intro a ha
  simp only [writesToActions, List.mem_map] at ha
  obtain ⟨b, _, rfl⟩ := ha
  simp [isIncErrors]

/-- No branch of the SOCKS5 `data` listener touches `stats.errors`. -/
theorem socks5DataStep_no_incErrors (auth : Option (List Nat × List Nat))
    (st : Socks5Step) (c : List Nat) :
    (socks5DataStep auth st c).acts.countP isIncErrors = 0 := by
  cases st with
  | handshakeStep => rfl
  | tunnelStep => rfl
  | authStep =>
    unfold socks5DataStep
    by_cases hd : (handleSOCKS5Authentication auth c).2 <;>
      simp [hd, countP_isIncErrors_writesToActions]
  | requestStep =>
    unfold socks5DataStep
    rcases hr : handleSOCKS5Request c with ⟨ws, out⟩
    cases out <;>
      simp [List.countP_append, countP_isIncErrors_writesToActions,
        List.countP_cons, isIncErrors]

/-- The whole post-handshake loop never touches `stats.errors`. -/
theorem runChunks_no_incErrors (auth : Option (List Nat × List Nat))
    (cs : List (List Nat)) :
    ∀ st, (runChunks auth st cs).acts.countP isIncErrors = 0 := by
  induction cs with
  | nil => intro st; rfl
  | cons c cs ih =>
    intro st
    simp only [runChunks]
    by_cases hd : (socks5DataStep auth st c).destroyed <;>
      simp [hd, List.countP_append, socks5DataStep_no_incErrors, ih]

/-- Once the loop has destroyed the socket, appending further `data`
events changes nothing (a destroyed socket emits no `data`). -/
theorem runChunks_append_of_destroyed (auth : Option (List Nat × List Nat))
    (cs extra : List (List Nat)) :
    ∀ st, (runChunks auth st cs).destroyed = true →
      runChunks auth st (cs ++ extra) = runChunks auth st cs := by
  induction cs with
  | nil => intro st h; simp [runChunks] at h
  | cons c cs ih =>
    intro st h
    simp only [List.cons_append, runChunks]
    by_cases hd : (socks5DataStep auth st c).destroyed
    · simp [hd]
    · simp only [runChunks, hd, if_false, if_neg, Bool.false_eq_true] at h ⊢
      have h' : (runChunks auth (socks5DataStep auth st c).step cs).destroyed = true := h
      simp [ih _ h']

/-- In the `'tunnel'` state the `data` listener is inert: any stream of
further chunks leaves state and trace unchanged. -/
theorem runChunks_tunnel_frozen (auth : Option (List Nat × List Nat))
    (extra : List (List Nat)) :
    runChunks auth .tunnelStep extra = ⟨.tunnelStep, false, []⟩ := by
  induction extra with
  | nil => rfl
  | cons c cs ih => simp [runChunks, socks5DataStep, ih]

/-- Reaching the `'tunnel'` state undisturbed freezes the loop: extra
chunks are ignored. -/
theorem runChunks_reach_tunnel_frozen (auth : Option (List Nat × List Nat))
    (cs extra : List (List Nat)) :
    ∀ st, (runChunks auth st cs).step = .tunnelStep →
      (runChunks auth st cs).destroyed = false →
      runChunks auth st (cs ++ extra) = runChunks auth st cs := by
  induction cs with
  | nil =>
    intro st hstep _
    simp only [runChunks] at hstep
    simp [runChunks, hstep, runChunks_tunnel_frozen]
  | cons c cs ih =>
    intro st hstep hdes
    simp only [List.cons_append, runChunks] at hstep hdes ⊢
    by_cases hd : (socks5DataStep auth st c).destroyed
    · simp [hd] at hdes
    · simp only [hd, if_false, Bool.false_eq_true] at hstep hdes ⊢
      simp [ih _ hstep hdes]

/-! ## Claim theorems -/

/-- C1.  For every established tunnel, closing either endpoint should
close the other.  The code achieves this for SOCKS5 tunnels (explicit
`close` handlers pair the sockets in both directions, for every close
mode), and for HTTP CONNECT tunnels on end-of-stream (pipe propagation)
and on target-socket errors; but an HTTP CONNECT client socket that goes
away with a transport error, or by destruction without FIN, triggers no
registered reaction that ends or destroys the target socket — the
target is orphaned.  The client socket itself is always removed from the
`connections` registry on `close`, so the active-connection count does
return to its prior value. -/
theorem c1_tunnel_close_pairing :
    (clientCloseClosesTarget socks5TunnelClientReaction .byEnd = true ∧
     clientCloseClosesTarget socks5TunnelClientReaction .byErr = true ∧
     clientCloseClosesTarget socks5TunnelClientReaction .byDestroy = true) ∧
    (targetCloseClosesClient socks5TunnelTargetReaction .byEnd = true ∧
     targetCloseClosesClient socks5TunnelTargetReaction .byErr = true ∧
     targetCloseClosesClient socks5TunnelTargetReaction .byDestroy = true) ∧
    (clientCloseClosesTarget httpTunnelClientReaction .byEnd = true ∧
     targetCloseClosesClient httpTunnelTargetReaction .byEnd = true ∧
     targetCloseClosesClient httpTunnelTargetReaction .byErr = true) ∧
    (clientCloseClosesTarget httpTunnelClientReaction .byErr = false ∧
     clientCloseClosesTarget httpTunnelClientReaction .byDestroy = false) ∧
    ((socks5TunnelClientReaction .evClose).contains .removeFromRegistry = true ∧
     (httpTunnelClientReaction .evClose).contains .removeFromRegistry = true) := by
  decide

/-- C4.  Protocol detection classifies the first chunk without losing a
byte (the classified buffer handed on is the input itself), and although
the source tests the HTTP method tokens before the SOCKS5 signature, the
two tests are mutually exclusive, so the classification equals the
spec's ordered rule (SOCKS5 first, then HTTP, then HTTP fallback); the
three concrete chunks of the spec classify as stated. -/
theorem c4_protocol_detection :
    (∀ d : List Nat, detectAndRouteProtocol d = (detectProtocolSpecOrder d, d)) ∧
    detectProtocol [5, 1, 0] = .socks5 ∧
    detectProtocol (asciiBytes "GET / HTTP/1.1\r\n\r\n") = .http ∧
    detectProtocol [170] = .http := by
  refine ⟨?_, by decide, by decide, by decide⟩
  intro d
  unfold detectAndRouteProtocol detectProtocol detectProtocolSpecOrder
  by_cases hh : startsWithHTTPMethod d
  · have h5 := startsWithHTTPMethod_first_byte hh
    rw [List.get?_eq_getElem?] at h5
    simp [hh, h5]
  · simp [hh, ite_self]

/-- C5.  On a successful SOCKS5 connect attempt the client is sent
exactly the 10-byte zeroed success reply before the pipes are installed;
on failure it is sent the 10-byte reply with code 0x05 and then
destroyed. -/
theorem c5_socks5_tunnel_replies (host : String) (port : Int) :
    createSOCKS5TunnelActions host port .success =
      [.connectAttempt host port, .writeClientBytes socks5SuccessReply,
       .pipeTargetToClient, .pipeClientToTarget] ∧
    socks5SuccessReply = [5, 0, 0, 1, 0, 0, 0, 0, 0, 0] ∧
    socks5SuccessReply.length = 10 ∧
    createSOCKS5TunnelActions host port .failure =
      [.connectAttempt host port, .writeClientBytes (sendSOCKS5ErrorBytes 5),
       .destroyClient] ∧
    sendSOCKS5ErrorBytes 5 = [5, 5, 0, 1, 0, 0, 0, 0, 0, 0] ∧
    (sendSOCKS5ErrorBytes 5).length = 10 :=
  ⟨rfl, rfl, rfl, rfl, rfl, rfl⟩

/-- C10.  For every CONNECT request with a target, the `connectTunnels`
counter is incremented first, before the connection attempt, and exactly
once — for the successful and the failing outcome alike. -/
theorem c10_connect_tunnels_counts_attempts (u : String) (o : ConnectOutcome) :
    (handleHTTPConnect (some u) o).take 2 =
      [.incConnectTunnels,
       .connectAttempt (splitConnectTarget u).1
         (jsParseIntOr443 (splitConnectTarget u).2)] ∧
    (handleHTTPConnect (some u) o).countP isIncConnectTunnels = 1 := by
  cases o <;>
    exact ⟨rfl, by simp [handleHTTPConnect, List.countP_cons, isIncConnectTunnels]⟩

/-- C2 counterexample.  After a valid no-auth handshake, the short
request chunk `[0x05]` is a protocol error: the connection is destroyed,
but `stats.errors` is not incremented — contradicting the claim that
every protocol error increments the errors counter. -/
theorem c2_counterexample :
    (handleSOCKS5Connection none [5, 1, 0] [[5]]).destroyed = true ∧
    (handleSOCKS5Connection none [5, 1, 0] [[5]]).acts.countP isIncErrors = 0 := by
  decide

/-- C2 amended.  A protocol error at any SOCKS5 phase destroys the
connection with no retry — once destroyed, any further data events are
ignored, the run is unchanged — but the `errors` counter is never
incremented anywhere on the SOCKS5 path (the source increments
`stats.errors` only in the server-level `error` handler and in the HTTP
routing `handleError`). -/
theorem c2_amended :
    (∀ (auth : Option (List Nat × List Nat)) (firstData : List Nat)
       (rest : List (List Nat)),
      (handleSOCKS5Connection auth firstData rest).acts.countP isIncErrors = 0) ∧
    (∀ (auth : Option (List Nat × List Nat)) (firstData : List Nat)
       (rest extra : List (List Nat)),
      (handleSOCKS5Connection auth firstData rest).destroyed = true →
      handleSOCKS5Connection auth firstData (rest ++ extra) =
        handleSOCKS5Connection auth firstData rest) := by
  constructor
  · intro auth firstData rest
    unfold handleSOCKS5Connection
    by_cases hh : (handleSOCKS5Handshake auth firstData).2 <;>
      simp [hh, List.countP_append, countP_isIncErrors_writesToActions,
        runChunks_no_incErrors]
  · intro auth firstData rest extra h
    unfold handleSOCKS5Connection at h ⊢
    cases hb : (handleSOCKS5Handshake auth firstData).2 with
    | true => simp [hb]
    | false =>
      simp only [hb, Bool.false_eq_true, if_false] at h ⊢
      rw [runChunks_append_of_destroyed auth rest extra _ h]

/-- C2 witness: the amended no-retry clause at the concrete destroying
run. -/
theorem c2_amended_witness :
    (handleSOCKS5Connection none [5, 1, 0] [[5]]).destroyed = true ∧
    handleSOCKS5Connection none [5, 1, 0] ([[5]] ++ [[1, 2, 3]]) =
      handleSOCKS5Connection none [5, 1, 0] [[5]] :=
  ⟨by decide, c2_amended.2 none [5, 1, 0] [[5]] [[1, 2, 3]] (by decide)⟩

/-- C3 counterexample.  A CONNECT first chunk carrying extra
already-read bytes (`BODY`) after the header block: on a successful
connect the client receives only the 200 status line and the pipes are
installed — `BODY` is written nowhere (neither to the client nor to the
target), contradicting the claim that already-read body bytes are passed
through verbatim. -/
theorem c3_counterexample :
    handleHTTPConnection "CONNECT example.com:443 HTTP/1.1\r\n\r\nBODY" .success =
      [.incHttpRequests, .incConnectTunnels, .connectAttempt "example.com" 443,
       .writeClientStr connEstablishedMsg, .pipeTargetToClient,
       .pipeClientToTarget] ∧
    clientStrWrites
        (handleHTTPConnection "CONNECT example.com:443 HTTP/1.1\r\n\r\nBODY" .success) =
      [connEstablishedMsg] := by
  constructor <;> rfl

/-- C3 amended.  The CONNECT target is split at `:` into host and port,
the port defaulting to 443 when missing or unparseable; on success the
client receives exactly the 200 status line and then the byte relay; on
failure it receives exactly the 502 status line, is destroyed, and no
relay is installed.  Already-read bytes beyond the parsed request are
not forwarded: the handler's behaviour depends only on the parsed
request. -/
theorem c3_amended :
    (∀ u : String, handleHTTPConnect (some u) .success =
      [.incConnectTunnels,
       .connectAttempt (splitConnectTarget u).1
         (jsParseIntOr443 (splitConnectTarget u).2),
       .writeClientStr connEstablishedMsg, .pipeTargetToClient,
       .pipeClientToTarget]) ∧
    (∀ u : String, handleHTTPConnect (some u) .failure =
      [.incConnectTunnels,
       .connectAttempt (splitConnectTarget u).1
         (jsParseIntOr443 (splitConnectTarget u).2),
       .writeClientStr badGatewayMsg, .destroyClient]) ∧
    jsParseIntOr443 none = 443 ∧
    (∀ s : String, jsParseInt s = none → jsParseIntOr443 (some s) = 443) ∧
    (∀ (s t : String) (o : ConnectOutcome), parseHTTPRequest s = parseHTTPRequest t →
      handleHTTPConnection s o = handleHTTPConnection t o) ∧
    (∀ u : String, hasPipe (handleHTTPConnect (some u) .failure) = false) := by
  refine ⟨fun u => rfl, fun u => rfl, rfl, ?_, ?_, ?_⟩
  · intro s h
    simp [jsParseIntOr443, h]
  · intro s t o h
    simp [handleHTTPConnection, h]
  · intro u
    rfl

/-- C3 witness: the port-default clause at the unparseable port text
`abc`. -/
theorem c3_amended_witness :
    jsParseInt "abc" = none ∧ jsParseIntOr443 (some "abc") = 443 :=
  ⟨by rfl, c3_amended.2.2.2.1 "abc" (by rfl)⟩

/-- C6.  With no authentication configured, any handshake buffer
(version byte 5, length at least 2) offering method 0x00 is answered
with exactly `[0x05, 0x00]` and the connection proceeds to the request
phase; a handshake not offering 0x00 is answered with exactly
`[0x05, 0xFF]` and the connection is destroyed. -/
theorem c6_handshake_no_auth (data : List Nat)
    (h0 : data.get? 0 = some 5) (h2 : 2 ≤ data.length) :
    ((some 0) ∈ handshakeMethods data →
      handleSOCKS5Connection none data [] =
        ⟨.requestStep, false, [.writeClientBytes [5, 0]]⟩) ∧
    ((some 0) ∉ handshakeMethods data →
      handleSOCKS5Connection none data [] =
        ⟨.handshakeStep, true, [.writeClientBytes [5, 255]]⟩) := by
  have hlen : ¬ data.length < 2 := by omega
  rw [List.get?_eq_getElem?] at h0
  constructor <;> intro hm <;>
    simp [handleSOCKS5Connection, handleSOCKS5Handshake, hlen, h0, hm,
      runChunks, writesToActions]

/-- C6 witness: the two concrete handshakes of the claim. -/
theorem c6_witness :
    handleSOCKS5Connection none [5, 1, 0] [] =
      ⟨.requestStep, false, [.writeClientBytes [5, 0]]⟩ ∧
    handleSOCKS5Connection none [5, 1, 2] [] =
      ⟨.handshakeStep, true, [.writeClientBytes [5, 255]]⟩ :=
  ⟨(c6_handshake_no_auth [5, 1, 0] (by decide) (by decide)).1 (by decide),
   (c6_handshake_no_auth [5, 1, 2] (by decide) (by decide)).2 (by decide)⟩

/-- C7.  Any SOCKS5 request buffer (length at least 4) whose command
byte is not CONNECT (0x01) is answered with the 10-byte error reply with
code 0x07 and the handler throws — no connection to any target is
attempted. -/
theorem c7_unsupported_command (data : List Nat)
    (hlen : 4 ≤ data.length) (hcmd : data.get? 1 ≠ some 1) :
    handleSOCKS5Request data = ([sendSOCKS5ErrorBytes 7], .threw) := by
  have h4 : ¬ data.length < 4 := by omega
  have hc : data.getD 1 0 ≠ 1 := by
    rcases hq : data.get? 1 with _ | c
    · rw [List.get?_eq_none] at hq
      omega
    · have hne : c ≠ 1 := fun h => hcmd (h ▸ hq)
      rw [List.get?_eq_getElem?] at hq
      simpa [List.getD, hq] using hne
  unfold handleSOCKS5Request
  rw [if_neg h4, if_pos (Or.inr hc)]

/-- C7 witness: the BIND command (0x02) request. -/
theorem c7_witness :
    4 ≤ ([5, 2, 0, 1, 0, 0, 0, 0, 0, 0] : List Nat).length ∧
    handleSOCKS5Request [5, 2, 0, 1, 0, 0, 0, 0, 0, 0] =
      ([sendSOCKS5ErrorBytes 7], .threw) :=
  ⟨by decide, c7_unsupported_command [5, 2, 0, 1, 0, 0, 0, 0, 0, 0]
    (by decide) (by decide)⟩

/-- C8.  Any SOCKS5 CONNECT request (version 5, command 0x01) with
address type 0x04 (IPv6) is answered with the 10-byte error reply with
code 0x08 and the handler throws — no connection to any target is
attempted. -/
theorem c8_ipv6_unsupported (data : List Nat)
    (hlen : 4 ≤ data.length) (h0 : data.get? 0 = some 5)
    (h1 : data.get? 1 = some 1) (h3 : data.get? 3 = some 4) :
    handleSOCKS5Request data = ([sendSOCKS5ErrorBytes 8], .threw) := by
  have h4 : ¬ data.length < 4 := by omega
  rw [List.get?_eq_getElem?] at h0 h1 h3
  have hv : data[0]?.getD 0 = 5 := by simp [h0]
  have hc : data[1]?.getD 0 = 1 := by simp [h1]
  have ha : data[3]?.getD 0 = 4 := by simp [h3]
  unfold handleSOCKS5Request
  rw [if_neg h4, if_neg (by simp [List.getD, hv, hc]),
    if_neg (by simp [List.getD, ha]), if_neg (by simp [List.getD, ha])]

/-- C8 witness: a concrete IPv6-typed request. -/
theorem c8_witness :
    4 ≤ ([5, 1, 0, 4, 0, 0, 0, 0, 0, 0] : List Nat).length ∧
    handleSOCKS5Request [5, 1, 0, 4, 0, 0, 0, 0, 0, 0] =
      ([sendSOCKS5ErrorBytes 8], .threw) :=
  ⟨by decide, c8_ipv6_unsupported [5, 1, 0, 4, 0, 0, 0, 0, 0, 0]
    (by decide) (by decide) (by decide) (by decide)⟩

/-- C9.  The `step` variable is a single value (one phase at a time) and
only advances along handshake → auth → request → tunneling; the listener
in the `'tunnel'` state is inert, so a connection that reached tunneling
undisturbed never re-enters the handshake, authentication or request
handlers: any further client data leaves state and trace unchanged. -/
theorem c9_phase_monotone :
    (∀ (auth : Option (List Nat × List Nat)) (st : Socks5Step) (c : List Nat),
      phaseRank st ≤ phaseRank (socks5DataStep auth st c).step) ∧
    (∀ (auth : Option (List Nat × List Nat)) (c : List Nat),
      socks5DataStep auth .tunnelStep c = ⟨.tunnelStep, false, []⟩) ∧
    (∀ (auth : Option (List Nat × List Nat)) (firstData : List Nat)
       (rest extra : List (List Nat)),
      (handleSOCKS5Connection auth firstData rest).step = .tunnelStep →
      (handleSOCKS5Connection auth firstData rest).destroyed = false →
      handleSOCKS5Connection auth firstData (rest ++ extra) =
        handleSOCKS5Connection auth firstData rest) := by
  refine ⟨?_, fun auth c => rfl, ?_⟩
  · intro auth st c
    cases st with
    | handshakeStep => exact le_refl _
    | tunnelStep => exact le_refl _
    | authStep =>
      unfold socks5DataStep
      by_cases hd : (handleSOCKS5Authentication auth c).2 <;>
        simp [hd, phaseRank]
    | requestStep =>
      unfold socks5DataStep
      rcases hr : handleSOCKS5Request c with ⟨ws, out⟩
      cases out <;> simp [phaseRank]
  · intro auth firstData rest extra hstep hdes
    unfold handleSOCKS5Connection at hstep hdes ⊢
    cases hb : (handleSOCKS5Handshake auth firstData).2 with
    | true => simp [hb] at hstep
    | false =>
      simp only [hb, Bool.false_eq_true, if_false] at hstep hdes ⊢
      rw [runChunks_reach_tunnel_frozen auth rest extra _ hstep hdes]

/-- C9 witness: a run reaching tunneling, frozen against an extra
chunk. -/
theorem c9_witness :
    (handleSOCKS5Connection none [5, 1, 0]
        [[5, 1, 0, 1, 9, 9, 9, 9, 0, 80]]).step = .tunnelStep ∧
    handleSOCKS5Connection none [5, 1, 0]
        ([[5, 1, 0, 1, 9, 9, 9, 9, 0, 80]] ++ [[5, 1, 0]]) =
      handleSOCKS5Connection none [5, 1, 0] [[5, 1, 0, 1, 9, 9, 9, 9, 0, 80]] :=
  ⟨by decide, c9_phase_monotone.2.2 none [5, 1, 0]
    [[5, 1, 0, 1, 9, 9, 9, 9, 0, 80]] [[5, 1, 0]] (by decide) (by decide)⟩

end ProxyTL
